import Mathlib

/-!
Verification of the positioning logic of `ContextualMenu.tsx`
(`britneywwc/react-components`): the position resolver `adjustForWindow`,
the anchor geometry reader `getPositionStyle`, the menu resize handler
`onResize`, and the tooltip delayed-open timer wiring.

Position names are modelled as `List Char`, and the JavaScript string
operations used by the source (`endsWith`, `startsWith`, and
`String.prototype.replace` with a string pattern, which replaces only the
first occurrence) are transcribed below.
-/

/-- JS `s.startsWith(pat)`. -/
def strStartsWith (s pat : List Char) : Bool :=
  pat.isPrefixOf s

/-- JS `s.endsWith(pat)`. -/
def strEndsWith (s pat : List Char) : Bool :=
  pat.isSuffixOf s

/-- JS `s.replace(pat, rep)` with a string pattern: replaces only the first
occurrence of `pat`, and returns `s` unchanged when `pat` does not occur.
(The empty pattern matches at the start, as in JS.) -/
def replaceFirst : List Char → List Char → List Char → List Char
  | [], pat, rep => if pat = [] then rep else []
  | c :: rest, pat, rep =>
    if pat.isPrefixOf (c :: rest) then rep ++ (c :: rest).drop pat.length
    else c :: replaceFirst rest pat rep

/-- The eight enumerated position names of the `position` constant. -/
def btmCenter : List Char := "btm-center".data
def btmLeft : List Char := "btm-left".data
def btmRight : List Char := "btm-right".data
def posLeft : List Char := "left".data
def posRight : List Char := "right".data
def topCenter : List Char := "top-center".data
def topLeft : List Char := "top-left".data
def topRight : List Char := "top-right".data

/-- The enumerated position set (the values of the `position` constant). -/
def positions : List (List Char) :=
  [btmCenter, btmLeft, btmRight, posLeft, posRight, topCenter, topLeft, topRight]

/-- Fit flags reported for one horizontal anchoring direction
(`fitsWindow.fromLeft` / `fitsWindow.fromRight` / `fitsCentered`). -/
structure DirFits where
  fitsLeft : Bool
  fitsRight : Bool
deriving DecidableEq

/-- Fit flag reported for anchoring from the top (`fitsWindow.fromTop`). -/
structure TopFits where
  fitsAbove : Bool
deriving DecidableEq

/-- Fit flag reported for anchoring from the bottom (`fitsWindow.fromBottom`). -/
structure BottomFits where
  fitsBelow : Bool
deriving DecidableEq

/-- Centered fit data (`fitsWindow.fromCenter`). -/
structure CenterFits where
  fitsCentered : DirFits
deriving DecidableEq

/-- The window fitment snapshot, with exactly the fields `adjustForWindow`
reads. -/
structure WindowFitment where
  fromLeft : DirFits
  fromRight : DirFits
  fromTop : TopFits
  fromBottom : BottomFits
  fromCenter : CenterFits
deriving DecidableEq

/-- The final centering step of `adjustForWindow`
(`ContextualMenu.tsx` lines 501-512): if the working position ends in
"center" and at least one centered side fits, rewrite the suffix to the
side that does not fit. -/
def centerStep (newPosition : List Char) (fitsWindow : WindowFitment) : List Char :=
  if strEndsWith newPosition "center".data &&
      (fitsWindow.fromCenter.fitsCentered.fitsRight ||
        fitsWindow.fromCenter.fitsCentered.fitsLeft) then
    let newPosition :=
      if !fitsWindow.fromCenter.fitsCentered.fitsRight then
        replaceFirst newPosition "center".data "right".data
      else newPosition
    if !fitsWindow.fromCenter.fitsCentered.fitsLeft then
      replaceFirst newPosition "center".data "left".data
    else newPosition
  else newPosition

/-- The position resolver (`ContextualMenu.tsx` lines 469-514), transcribed
rule by rule with JS first-occurrence `replace` semantics. -/
def adjustForWindow (position : List Char) (fitsWindow : WindowFitment) : List Char :=
  let newPosition := position
  let newPosition :=
    if !fitsWindow.fromLeft.fitsLeft && newPosition == posLeft then
      "top-right".data
    else newPosition
  let newPosition :=
    if !fitsWindow.fromRight.fitsRight && newPosition == posRight then
      "top-left".data
    else newPosition
  let newPosition :=
    if !fitsWindow.fromRight.fitsLeft && strEndsWith newPosition "-right".data then
      replaceFirst newPosition "right".data "left".data
    else newPosition
  let newPosition :=
    if !fitsWindow.fromLeft.fitsRight && strEndsWith newPosition "-left".data then
      replaceFirst newPosition "left".data "right".data
    else newPosition
  let newPosition :=
    if !fitsWindow.fromTop.fitsAbove && strStartsWith newPosition "top".data then
      replaceFirst newPosition "top".data "btm".data
    else newPosition
  let newPosition :=
    if !fitsWindow.fromBottom.fitsBelow && strStartsWith newPosition "btm".data then
      replaceFirst newPosition "btm".data "top".data
    else newPosition
  let newPosition :=
    if !fitsWindow.fromLeft.fitsRight && !fitsWindow.fromRight.fitsLeft &&
        (strEndsWith newPosition "-left".data || strEndsWith newPosition "-right".data) then
      replaceFirst (replaceFirst newPosition "left".data "center".data)
        "right".data "center".data
    else newPosition
  centerStep newPosition fitsWindow

/-- Condition under which the centering step rewrites "center" to "right"
(outer guard of lines 501-505 together with the inner test of line 506). -/
def centerFiresRight (p : List Char) (f : WindowFitment) : Bool :=
  strEndsWith p "center".data &&
    (f.fromCenter.fitsCentered.fitsRight || f.fromCenter.fitsCentered.fitsLeft) &&
    !f.fromCenter.fitsCentered.fitsRight

/-- Condition under which the centering step rewrites "center" to "left"
(outer guard of lines 501-505 together with the inner test of line 509). -/
def centerFiresLeft (p : List Char) (f : WindowFitment) : Bool :=
  strEndsWith p "center".data &&
    (f.fromCenter.fitsCentered.fitsRight || f.fromCenter.fitsCentered.fitsLeft) &&
    !f.fromCenter.fitsCentered.fitsLeft

/-- Fitment where every fit flag is true. -/
def allFits : WindowFitment :=
  ⟨⟨true, true⟩, ⟨true, true⟩, ⟨true⟩, ⟨true⟩, ⟨⟨true, true⟩⟩⟩

/-- Fitment where extending right from the left edge does not fit and
centering does not fit on the left side; every other flag is true. -/
def fitNonIdem : WindowFitment :=
  ⟨⟨true, false⟩, ⟨true, true⟩, ⟨true⟩, ⟨true⟩, ⟨⟨false, true⟩⟩⟩

/-- Fitment where centering does not fit on the right side only; every
other flag is true. -/
def fitCenterRightFails : WindowFitment :=
  ⟨⟨true, true⟩, ⟨true, true⟩, ⟨true⟩, ⟨true⟩, ⟨⟨true, false⟩⟩⟩

/-- C1: for every requested position in the enumerated set and every fitment
in which all fit flags are true (including the centered ones),
`adjustForWindow` returns the requested position unchanged. -/
theorem adjustForWindow_allFits_id (p : List Char) (f : WindowFitment)
    (hp : p ∈ positions)
    (h1 : f.fromLeft.fitsLeft = true) (h2 : f.fromLeft.fitsRight = true)
    (h3 : f.fromRight.fitsLeft = true) (h4 : f.fromRight.fitsRight = true)
    (h5 : f.fromTop.fitsAbove = true) (h6 : f.fromBottom.fitsBelow = true)
    (h7 : f.fromCenter.fitsCentered.fitsLeft = true)
    (h8 : f.fromCenter.fitsCentered.fitsRight = true) :
    adjustForWindow p f = p := by
  rcases f with ⟨⟨a, b⟩, ⟨c, d⟩, ⟨e⟩, ⟨g⟩, ⟨⟨h, i⟩⟩⟩
  obtain rfl : a = true := h1
  obtain rfl : b = true := h2
  obtain rfl : c = true := h3
  obtain rfl : d = true := h4
  obtain rfl : e = true := h5
  obtain rfl : g = true := h6
  obtain rfl : h = true := h7
  obtain rfl : i = true := h8
  fin_cases hp <;> decide

/-- Witness for C1 at position "top-left" and the all-true fitment. -/
theorem adjustForWindow_allFits_id_witness :
    topLeft ∈ positions ∧ adjustForWindow topLeft allFits = topLeft :=
  ⟨by decide, adjustForWindow_allFits_id topLeft allFits (by decide)
    rfl rfl rfl rfl rfl rfl rfl rfl⟩

/-- C2 counterexample: `adjustForWindow` is not idempotent. For the
enumerated position "top-center" and the fitment `fitNonIdem`, the first run
yields "top-left" and the second run yields "top-right". -/
theorem adjustForWindow_not_idempotent :
    topCenter ∈ positions ∧
    adjustForWindow (adjustForWindow topCenter fitNonIdem) fitNonIdem ≠
      adjustForWindow topCenter fitNonIdem := by decide

/-- C2 (amended): `adjustForWindow` is idempotent for every enumerated
position that does not end in "center" (only "top-center" and "btm-center"
can oscillate). -/
theorem adjustForWindow_idempotent_noncenter (p : List Char) (f : WindowFitment)
    (hp : p ∈ positions) (hc : strEndsWith p "center".data = false) :
    adjustForWindow (adjustForWindow p f) f = adjustForWindow p f := by
  rcases f with ⟨⟨a, b⟩, ⟨c, d⟩, ⟨e⟩, ⟨g⟩, ⟨⟨h, i⟩⟩⟩
  fin_cases hp <;> revert hc <;> revert a b c d e g h i <;> decide

/-- Witness for C2's amended theorem at position "top-left". -/
theorem adjustForWindow_idempotent_noncenter_witness :
    adjustForWindow (adjustForWindow topLeft fitNonIdem) fitNonIdem =
      adjustForWindow topLeft fitNonIdem :=
  adjustForWindow_idempotent_noncenter topLeft fitNonIdem (by decide) (by decide)

/-- C3: for every position in the enumerated set and every fitment, the
output of `adjustForWindow` is again a member of the enumerated set. -/
theorem adjustForWindow_mem_positions (p : List Char) (f : WindowFitment)
    (hp : p ∈ positions) : adjustForWindow p f ∈ positions := by
  rcases f with ⟨⟨a, b⟩, ⟨c, d⟩, ⟨e⟩, ⟨g⟩, ⟨⟨h, i⟩⟩⟩
  fin_cases hp <;> revert a b c d e g h i <;> decide

/-- Witness for C3 at position "left" and the fitment `fitNonIdem`. -/
theorem adjustForWindow_mem_positions_witness :
    posLeft ∈ positions ∧ adjustForWindow posLeft fitNonIdem ∈ positions :=
  ⟨by decide, adjustForWindow_mem_positions posLeft fitNonIdem (by decide)⟩

/-- C4 counterexample: for the working position "top-center" and a fitment
where centering fails only on the right side (so the left side is the side
that fits), the centering step does not rewrite the suffix to "left" as the
claim states; it rewrites it to "right", the failing side. -/
theorem centerStep_counterexample :
    centerStep topCenter fitCenterRightFails ≠ topLeft ∧
    centerStep topCenter fitCenterRightFails = topRight := by decide

/-- C4 (amended): when the working position ends in "center" and centering
fails on exactly one side, the centering step rewrites the suffix to the
side that does NOT fit (anchoring the overlay at the failing side, so its
body extends toward the side that fits). -/
theorem centerStep_biases_to_failing_side (p : List Char) (f : WindowFitment)
    (hp : strEndsWith p "center".data = true) :
    (f.fromCenter.fitsCentered.fitsRight = false →
      f.fromCenter.fitsCentered.fitsLeft = true →
      centerStep p f = replaceFirst p "center".data "right".data) ∧
    (f.fromCenter.fitsCentered.fitsLeft = false →
      f.fromCenter.fitsCentered.fitsRight = true →
      centerStep p f = replaceFirst p "center".data "left".data) := by
  constructor <;> intro h1 h2 <;> simp [centerStep, hp, h1, h2]

/-- Witness for C4's amended theorem at "top-center" with
`fitCenterRightFails`. -/
theorem centerStep_biases_to_failing_side_witness :
    strEndsWith topCenter "center".data = true ∧
    centerStep topCenter fitCenterRightFails =
      replaceFirst topCenter "center".data "right".data :=
  ⟨by decide, (centerStep_biases_to_failing_side topCenter fitCenterRightFails
    (by decide)).1 rfl rfl⟩

/-- C5 counterexample: the bare position "center" (outside the resolver's
enumerated set) is NOT passed through unchanged for every fitment: with
`fitCenterRightFails` the centering step rewrites it to "right". -/
theorem adjustForWindow_center_counterexample :
    adjustForWindow "center".data fitCenterRightFails ≠ "center".data ∧
    adjustForWindow "center".data fitCenterRightFails = posRight := by decide

/-- C5 (amended): an input position that matches none of the resolver's
string patterns (it is not "left" or "right", does not end in "-right",
"-left" or "center", and does not start with "top" or "btm") is returned
unchanged for every fitment; the resolver is a total function and never
errors. Bare "center" does match the centering-step pattern and can be
rewritten. -/
theorem adjustForWindow_unmatched_id (p : List Char) (f : WindowFitment)
    (h1 : p ≠ posLeft) (h2 : p ≠ posRight)
    (h3 : strEndsWith p "-right".data = false)
    (h4 : strEndsWith p "-left".data = false)
    (h5 : strStartsWith p "top".data = false)
    (h6 : strStartsWith p "btm".data = false)
    (h7 : strEndsWith p "center".data = false) :
    adjustForWindow p f = p := by
  simp [adjustForWindow, centerStep, beq_iff_eq, h1, h2, h3, h4, h5, h6, h7]

/-- Witness for C5's amended theorem at the unrecognized position "fixed". -/
theorem adjustForWindow_unmatched_id_witness :
    adjustForWindow "fixed".data fitNonIdem = "fixed".data :=
  adjustForWindow_unmatched_id "fixed".data fitNonIdem (by decide) (by decide)
    (by decide) (by decide) (by decide) (by decide) (by decide)

/-- C10: for every working position and fitment, the two suffix replacements
of the centering step cannot both fire (the outer guard requires at least
one centered side to fit), and consequently the step rewrites "center" at
most once: the result is the input, or a single rewrite to "right", or a
single rewrite to "left". -/
theorem centerStep_at_most_one_rewrite (p : List Char) (f : WindowFitment) :
    ¬(centerFiresRight p f = true ∧ centerFiresLeft p f = true) ∧
    (centerStep p f = p ∨
      centerStep p f = replaceFirst p "center".data "right".data ∨
      centerStep p f = replaceFirst p "center".data "left".data) := by
  rcases f with ⟨fl, fr, ft, fb, ⟨⟨h, i⟩⟩⟩
  constructor
  · cases h <;> cases i <;> simp [centerFiresRight, centerFiresLeft]
  · cases hp : strEndsWith p "center".data <;> cases h <;> cases i <;>
      simp [centerStep, hp]

/-! ## Anchor geometry reader (`getPositionStyle`, lines 423-467) -/

/-- The anchor's bounding rectangle (`getBoundingClientRect`). -/
structure Rect where
  x : ℚ
  y : ℚ
  height : ℚ
  width : ℚ
deriving DecidableEq

/-- The mounted wrapper node together with the window scroll offsets read
by `getPositionStyle`. -/
structure AnchorNode where
  rect : Rect
  scrollX : ℚ
  scrollY : ℚ
deriving DecidableEq

/-- The computed overlay style. -/
structure PositionStyle where
  left : ℚ
  pointerEvents : Option (List Char) := none
  position : List Char
  top : ℚ
deriving DecidableEq

/-- JS `a || 0` for a number `a` (0 is falsy). -/
def jsOrZero (a : ℚ) : ℚ :=
  if a = 0 then 0 else a

/-- The anchor geometry reader (`getPositionStyle`, lines 423-467): null
when no wrapper node is mounted; otherwise the absolute (left, top) anchor
point for the given position name. -/
def getPositionStyle (pos : List Char) (wrapperNode : Option AnchorNode) :
    Option PositionStyle :=
  match wrapperNode with
  | none => none
  | some node =>
    let x := node.rect.x
    let y := node.rect.y
    let height := node.rect.height
    let width := node.rect.width
    let left := jsOrZero (x + node.scrollX)
    let top := jsOrZero (y + node.scrollY)
    let moved : ℚ × ℚ :=
      if pos = btmCenter then (left + width / 2, top + height)
      else if pos = btmLeft then (left, top + height)
      else if pos = btmRight then (left + width, top + height)
      else if pos = posLeft then (left, top + height / 2)
      else if pos = posRight then (left + width, top + height / 2)
      else if pos = topCenter then (left + width / 2, top)
      else if pos = topLeft then (left, top)
      else if pos = topRight then (left + width, top)
      else (left, top)
    some { position := "absolute".data, left := moved.1, top := moved.2 }

/-- The anchor rectangle {x:10, y:20, width:100, height:50} with zero scroll
offsets. -/
def anchorExample : AnchorNode :=
  ⟨⟨10, 20, 50, 100⟩, 0, 0⟩

/-- C7: on the anchor rectangle {x:10, y:20, width:100, height:50} with zero
scroll offsets, position "top-left" yields {position: "absolute", left: 10,
top: 20} and position "btm-center" yields left 60, top 70. -/
theorem getPositionStyle_example :
    getPositionStyle topLeft (some anchorExample) =
      some { position := "absolute".data, left := 10, top := 20 } ∧
    getPositionStyle btmCenter (some anchorExample) =
      some { position := "absolute".data, left := 60, top := 70 } := by
  refine ⟨?_, ?_⟩ <;>
  · simp only [getPositionStyle, anchorExample]
    norm_num [jsOrZero]
    repeat first
    | rw [if_pos rfl]
    | rw [if_neg (by decide)]
    try norm_num

/-- C8: `getPositionStyle` returns null exactly when no wrapper node is
available, and every non-null result declares position "absolute". -/
theorem getPositionStyle_null_iff_and_absolute (pos : List Char)
    (wrapperNode : Option AnchorNode) :
    (getPositionStyle pos wrapperNode = none ↔ wrapperNode = none) ∧
    (∀ s, getPositionStyle pos wrapperNode = some s →
      s.position = "absolute".data) := by
  cases wrapperNode <;> simp [getPositionStyle]

/-- Witness for C8 at position "top-left" and the example anchor. -/
theorem getPositionStyle_null_iff_and_absolute_witness :
    ((getPositionStyle topLeft (some anchorExample)).getD
      { position := [], left := 0, top := 0 }).position = "absolute".data :=
  (getPositionStyle_null_iff_and_absolute topLeft (some anchorExample)).2
    ((getPositionStyle topLeft (some anchorExample)).getD
      { position := [], left := 0, top := 0 }) rfl

/-! ## Menu resize handling (`getPositionNode`, `getPositionNodeVisible`,
`onResize`; lines 39-62 and 166-181) -/

/-- A DOM-like node: all `onResize` needs to know is whether its
`offsetParent` is non-null. -/
structure DomNode where
  hasOffsetParent : Bool
deriving DecidableEq

/-- The component's wrapping element: the wrapper node itself and the
optional `.p-contextual-menu__toggle` element found inside it. -/
structure WrapperNode where
  node : DomNode
  toggle : Option DomNode
deriving DecidableEq

/-- `getPositionNode` (lines 39-53): the supplied `positionNode` if any,
else the toggle inside the wrapper if it exists, else the wrapper, else
null. -/
def getPositionNode (wrapper : Option WrapperNode)
    (positionNode : Option DomNode) : Option DomNode :=
  match positionNode with
  | some n => some n
  | none =>
    match wrapper with
    | some w => some (w.toggle.getD w.node)
    | none => none

/-- `getPositionNodeVisible` (lines 60-62): a falsy node counts as visible,
otherwise the node is visible when its `offsetParent` is not null. -/
def getPositionNodeVisible (positionNode : Option DomNode) : Bool :=
  match positionNode with
  | none => true
  | some n => n.hasOffsetParent

/-- What the `onResize` handler does on one resize event. -/
inductive ResizeAction where
  | closePortal
  | updatePositionCoords
deriving DecidableEq

/-- The `onResize` callback (lines 166-181): close the menu when the
position node exists but has become hidden, otherwise update the
coordinates so the menu stays relative to the toggle. -/
def onResize (wrapper : Option WrapperNode) (positionNode : Option DomNode) :
    ResizeAction :=
  match getPositionNode wrapper positionNode with
  | some parent =>
    if !getPositionNodeVisible (some parent) then .closePortal
    else .updatePositionCoords
  | none => .updatePositionCoords

/-- C9: on a resize event, when the anchor node exists, the controller
closes the menu exactly when the anchor has become invisible (its offset
parent is null); when the anchor remains visible, it recomputes the anchor
coordinates and does not close. -/
theorem onResize_closes_iff_anchor_hidden (wrapper : Option WrapperNode)
    (positionNode : Option DomNode) (parent : DomNode)
    (hp : getPositionNode wrapper positionNode = some parent) :
    (parent.hasOffsetParent = false →
      onResize wrapper positionNode = .closePortal) ∧
    (parent.hasOffsetParent = true →
      onResize wrapper positionNode = .updatePositionCoords) := by
  constructor <;> intro h <;> simp [onResize, hp, getPositionNodeVisible, h]

/-- Witness for C9: a hidden supplied position node closes the menu, and a
visible one updates the coordinates. -/
theorem onResize_closes_iff_anchor_hidden_witness :
    onResize none (some ⟨false⟩) = .closePortal ∧
    onResize none (some ⟨true⟩) = .updatePositionCoords :=
  ⟨(onResize_closes_iff_anchor_hidden none (some ⟨false⟩) ⟨false⟩ rfl).1 rfl,
    (onResize_closes_iff_anchor_hidden none (some ⟨true⟩) ⟨true⟩ rfl).2 rfl⟩

/-! ## Tooltip delayed open (`delayedOpenPortal` lines 646-649,
`cancelableClosePortal` lines 557-560)

The tooltip schedules `openPortal` with `setTimeout(..., delay)` on every
`mouseover` and stores the timeout handle with `setTimer`, overwriting any
previously stored handle.  A dismiss trigger runs `cancelableClosePortal`,
which clears only the stored (most recent) handle and closes the portal.
The model below replays a sequence of time-stamped hover-start and dismiss
events against that behaviour; timers that are due and not cleared invoke
`openPortal`. -/

/-- One `setTimeout` handle: its id, the time at which it fires, and
whether `clearTimeout` was called on it or it has already fired. -/
structure TimerHandle where
  id : Nat
  fireAt : Nat
  cleared : Bool
  fired : Bool
deriving DecidableEq

/-- The tooltip controller state: the portal's open flag, the number of
Closed-to-Open transitions, the created timers, the handle stored by
`setTimer` (only the most recent one), and the next fresh handle id. -/
structure TooltipState where
  isOpen : Bool
  openTransitions : Nat
  timers : List TimerHandle
  stored : Option Nat
  nextId : Nat
deriving DecidableEq

/-- The initial (closed) tooltip state. -/
def initTooltip : TooltipState :=
  ⟨false, 0, [], none, 0⟩

/-- `openPortal`: opens the portal; counts a transition only when it was
closed. -/
def openPortalFx (s : TooltipState) : TooltipState :=
  if s.isOpen then s
  else { s with isOpen := true, openTransitions := s.openTransitions + 1 }

/-- `closePortal`: closes the portal. -/
def closePortalFx (s : TooltipState) : TooltipState :=
  { s with isOpen := false }

/-- `clearTimeout(timer)` on the stored handle: marks that handle cleared;
a no-op when no handle is stored. -/
def clearStoredTimeout (s : TooltipState) : TooltipState :=
  match s.stored with
  | none => s
  | some i =>
    { s with timers := s.timers.map fun t =>
        if t.id = i then { t with cleared := true } else t }

/-- Fire every timer that is due at time `now`, was not cleared and has not
fired yet: each one runs `openPortal`. -/
def fireDue (now : Nat) (s : TooltipState) : TooltipState :=
  let due := s.timers.filter fun t =>
    decide (t.fireAt ≤ now) && !t.cleared && !t.fired
  let s := { s with timers := s.timers.map fun t =>
    if (decide (t.fireAt ≤ now) && !t.cleared && !t.fired) = true then
      { t with fired := true }
    else t }
  due.foldl (fun acc _ => openPortalFx acc) s

/-- A time-stamped input event of one tooltip hover session: a hover start
(`mouseover`, which runs `delayedOpenPortal`) or a dismiss trigger
(mouse-out / blur / escape, which runs `cancelableClosePortal`). -/
inductive TooltipEvent where
  | hoverStart (t : Nat)
  | dismiss (t : Nat)
deriving DecidableEq

/-- Process one event, firing any timers that came due first.
`hoverStart` transcribes `delayedOpenPortal`: create a timeout that fires
`delay` later and store its handle (overwriting the previous one).
`dismiss` transcribes `cancelableClosePortal`: clear the stored handle and
close the portal. -/
def stepEvent (delay : Nat) (s : TooltipState) : TooltipEvent → TooltipState
  | .hoverStart t =>
    let s := fireDue t s
    { s with
      timers := s.timers ++ [⟨s.nextId, t + delay, false, false⟩],
      stored := some s.nextId,
      nextId := s.nextId + 1 }
  | .dismiss t =>
    let s := fireDue t s
    closePortalFx (clearStoredTimeout s)

/-- Replay a hover session: process the events in order, then let time run
to `tEnd`, firing any remaining timers. -/
def runTooltip (delay : Nat) (events : List TooltipEvent) (tEnd : Nat) :
    TooltipState :=
  fireDue tEnd (events.foldl (stepEvent delay) initTooltip)

/-- C6 (code divergence): with the default 350-unit delay, hover starts at
t=0 and t=10 followed by a dismiss at t=20 — well before the delay
elapses — still end with the tooltip Open once time passes t=350: the
dismiss clears only the most recently stored timeout, so the first hover's
timeout leaks and fires `openPortal`.  The claim requires the tooltip never
to transition to Open in this session. -/
theorem tooltip_leaked_timer_opens :
    (runTooltip 350 [.hoverStart 0, .hoverStart 10, .dismiss 20] 400).isOpen
        = true ∧
    (runTooltip 350 [.hoverStart 0, .hoverStart 10, .dismiss 20] 400).openTransitions
        = 1 ∧
    (runTooltip 350 [.hoverStart 0, .dismiss 20] 400).isOpen = false := by
  decide
